import Mathlib

/-!
A shallow embedding of `src/recompi/recompi.py`, the single module of the
python-recompi client library, together with theorems about its validation
and serialization behaviour.

Conventions of the embedding:
* Python strings are `String`; an argument that may be Python `None` is an
  `Option String` (`none` = `None`).
* Python dictionaries whose values are strings are ordered association
  lists `List (String × String)` (Python 3.7+ dicts preserve insertion
  order); full JSON request bodies are values of the `Json` type below.
* A constructor or method that can raise is a function into
  `Except PyError _`; `Except.error` models a raised exception, and in the
  client it means no HTTP request is ever issued.
* The HTTP transport (the `requests` library) is external; each client
  operation is modelled up to the `Request` value it hands to
  `RecomPI._request`.
* `hashlib.sha256(x.encode()).hexdigest()` is also external library code;
  it is modelled by an abstract function `sha256_hexdigest : String →
  String` threaded through the definitions that use it.  UTF-8 encoding of
  a concatenation is the concatenation of the encodings, so applying the
  abstract function to the concatenated `String` is faithful.
-/

/-- Exception values raised by the library: `fieldTypeError op field expected
actual` mirrors `RecomPIFieldTypeError(op, field, value, target_class)`
(recording the expected and the actual class name), and `generalError msg`
mirrors `RecomPIException(msg)`. -/
inductive PyError where
  | fieldTypeError (op field expected actual : String)
  | generalError (msg : String)
deriving DecidableEq

/-- JSON values as assembled for request bodies.  Objects keep insertion
order, like Python dicts. -/
inductive Json where
  | str (s : String)
  | arr (xs : List Json)
  | obj (kvs : List (String × Json))

/-- Python truthiness of a string-or-None value: `None` and the empty string
are falsy, every other string is truthy. -/
def pyTruthy : Option String → Bool
  | none => false
  | some s => s != ""

/-- Lift a Python dict of strings to a JSON object. -/
def strDict (d : List (String × String)) : Json :=
  Json.obj (d.map (fun kv => (kv.1, Json.str kv.2)))

/-- The `Tag` value type (fields after a successful `__init__`, where all
three attributes are strings). -/
structure Tag where
  id : String
  name : String
  desc : String
deriving DecidableEq

/-- `Tag.__init__(id, name, desc=None)`: `desc` falls back to `name` when it
is `None` (`desc if desc is not None else name`); the three string type
checks hold by typing; then an empty `id` or `name` raises
`RecomPIException`. -/
def Tag.init (id name : String) (desc : Option String) : Except PyError Tag :=
  if id = "" ∨ name = "" then
    Except.error (PyError.generalError "Both `id` and `name` are required for initializing a Tag.")
  else
    Except.ok ⟨id, name, desc.getD name⟩

/-- `Tag.to_json`: the dict `\x7b"id": id, "name": name, "desc": desc\x7d`. -/
def Tag.to_json (t : Tag) : List (String × String) :=
  [("id", t.id), ("name", t.name), ("desc", t.desc)]

/-- The `Profile` value type (fields after a successful `__init__`). -/
structure Profile where
  name : String
  id : String
deriving DecidableEq

/-- `Profile.__init__(name, id)`: string type checks hold by typing; an empty
`id` or `name` raises `RecomPIException`. -/
def Profile.init (name id : String) : Except PyError Profile :=
  if id = "" ∨ name = "" then
    Except.error (PyError.generalError "Both `id` and `name` are required for initializing a Profile.")
  else
    Except.ok ⟨name, id⟩

/-- `Profile.to_json`: the single-entry dict `\x7bname: id\x7d`. -/
def Profile.to_json (p : Profile) : List (String × String) :=
  [(p.name, p.id)]

/-- `SecureProfile.__init__` delegates to `Profile.__init__`; a
`SecureProfile` instance carries exactly the `Profile` fields. -/
def SecureProfile.init (name id : String) : Except PyError Profile :=
  Profile.init name id

/-- The Python expression `hash_salt if hash_salt else ""` from
`SecureProfile.to_json`: a `None` or empty salt becomes the empty string. -/
def saltOrEmpty : Option String → String
  | none => ""
  | some s => if s = "" then "" else s

/-- `SecureProfile.to_json(hash_salt=None)`: each value of the plain
`Profile.to_json` dict is replaced by
`sha256((v + (hash_salt if hash_salt else "")).encode()).hexdigest()`, the
external hash being the abstract `sha256_hexdigest`. -/
def SecureProfile.to_json (sha256_hexdigest : String → String) (p : Profile)
    (hash_salt : Option String) : List (String × String) :=
  (Profile.to_json p).map (fun nv => (nv.1, sha256_hexdigest (nv.2 ++ saltOrEmpty hash_salt)))

/-- The `Location` value type: the code keeps the four optional attributes
as given (possibly `None`). -/
structure Location where
  ip : Option String
  url : Option String
  referer : Option String
  useragent : Option String
deriving DecidableEq

/-- `Location.__init__(ip=None, url=None, referer=None, useragent=None)`:
raises `RecomPIException` when all four fields are falsy; the per-field type
checks are guarded by truthiness and hold by typing. -/
def Location.init (ip url referer useragent : Option String) :
    Except PyError Location :=
  if !pyTruthy ip && !pyTruthy url && !pyTruthy referer && !pyTruthy useragent then
    Except.error (PyError.generalError "At least one of the location fields must be provided.")
  else
    Except.ok ⟨ip, url, referer, useragent⟩

/-- One key of `Location.to_json`: the key is present exactly when the field
is truthy. -/
def optEntry (key : String) (v : Option String) : List (String × String) :=
  match v with
  | some s => if s = "" then [] else [(key, s)]
  | none => []

/-- `Location.to_json`: only the truthy fields appear, in the order
ip, url, referer, useragent. -/
def Location.to_json (l : Location) : List (String × String) :=
  optEntry "ip" l.ip ++ optEntry "url" l.url
    ++ optEntry "referer" l.referer ++ optEntry "useragent" l.useragent

/-- The `Geo` value type: after a successful `__init__` both attributes have
passed the unconditional `str` type check, so both are strings. -/
structure Geo where
  country : String
  province : String
deriving DecidableEq

/-- `Geo.__init__(country=None, province=None)`: unlike `Location`, the two
type checks are unconditional, so a `None` country or province raises
`RecomPIFieldTypeError` before the emptiness check; then two empty fields
raise `RecomPIException`. -/
def Geo.init (country province : Option String) : Except PyError Geo :=
  match country with
  | none => Except.error (PyError.fieldTypeError "Geo.__init__" "country" "str" "NoneType")
  | some c =>
    match province with
    | none => Except.error (PyError.fieldTypeError "Geo.__init__" "province" "str" "NoneType")
    | some p =>
      if c = "" ∧ p = "" then
        Except.error (PyError.generalError "At least one of the geo fields must be provided.")
      else
        Except.ok ⟨c, p⟩

/-- `Geo.to_json`: only the truthy fields appear, country first. -/
def Geo.to_json (g : Geo) : List (String × String) :=
  (if g.country = "" then [] else [("country", g.country)])
    ++ (if g.province = "" then [] else [("province", g.province)])

/-- The possible runtime status captured by `RecomPIResponse` from
`response.status_code`: an integer, some other object (represented by its
text), or `None`. -/
inductive PyStatus where
  | int (n : Int)
  | text (s : String)
  | pynone
deriving DecidableEq

/-- The `RecomPIResponse` wrapper: version, decoded body (`Sum.inl` a parsed
JSON body, `Sum.inr` the raw text fallback) and the captured status. -/
structure RecomPIResponse where
  version : Int
  body : Json ⊕ String
  status : PyStatus

/-- `RecomPIResponse.is_success`:
`isinstance(self.status, int) and self.status >= 200 and self.status < 300`. -/
def RecomPIResponse.is_success (r : RecomPIResponse) : Bool :=
  match r.status with
  | PyStatus.int n => decide (200 ≤ n) && decide (n < 300)
  | _ => false

/-- An element of the `profiles` argument of `push`/`recom`: a plain
`Profile` instance, a `SecureProfile` instance, or a `Tag` instance (an
object that is not a profile at all). -/
inductive ProfileItem where
  | plain (p : Profile)
  | secure (p : Profile)
  | tagItem (t : Tag)
deriving DecidableEq

/-- `isinstance(x, Profile)`: true for `Profile` and its subclass
`SecureProfile`, false for `Tag`. -/
def ProfileItem.isProfile : ProfileItem → Bool
  | .plain _ => true
  | .secure _ => true
  | .tagItem _ => false

/-- `profile.to_json()` as invoked by `push` and `recom`: dynamic dispatch,
with no salt argument, so a `SecureProfile` uses its default
`hash_salt=None`. -/
def ProfileItem.to_json (sha256_hexdigest : String → String) :
    ProfileItem → List (String × String)
  | .plain p => Profile.to_json p
  | .secure p => SecureProfile.to_json sha256_hexdigest p none
  | .tagItem t => Tag.to_json t

/-- The `tags` argument of `push`: a single `Tag` or a list of `Tag`. -/
inductive TagsArg where
  | single (t : Tag)
  | list (ts : List Tag)

/-- The `profiles` argument of `push`/`recom`: a single object or a list. -/
inductive ProfilesArg where
  | single (x : ProfileItem)
  | list (xs : List ProfileItem)

/-- The `labels` argument of `recom`: a single string or a list of strings. -/
inductive LabelsArg where
  | single (s : String)
  | list (ss : List String)

/-- `if isinstance(tags, Tag): tags = [tags]`. -/
def tagsToList : TagsArg → List Tag
  | .single t => [t]
  | .list ts => ts

/-- `if isinstance(labels, str): labels = [labels]`. -/
def labelsToList : LabelsArg → List String
  | .single s => [s]
  | .list ss => ss

/-- `if isinstance(profiles, Profile): profiles = [profiles]` (the following
`isinstance(profiles, SecureProfile)` check in `push` can never fire, since
`SecureProfile` is a subclass of `Profile`): a single profile-like object is
wrapped into a list, anything else is left as it is. -/
def normalizeProfiles : ProfilesArg → ProfilesArg
  | .single x => if x.isProfile then ProfilesArg.list [x] else ProfilesArg.single x
  | .list xs => ProfilesArg.list xs

/-- The client object: fields after `RecomPI.__init__`. -/
structure RecomPI where
  api_key : String
  version : Int
  hash_salt : Option String
  BASE_URL : String

/-- `RecomPI.__init__(api_key, version=2, secure_url=True, hash_salt=None)`:
type checks hold by typing; `version <= 0` raises `RecomPIException`; the
base URL drops to plain http when `secure_url` is false. -/
def RecomPI.init (api_key : String) (version : Int) (secure_url : Bool)
    (hash_salt : Option String) : Except PyError RecomPI :=
  if version ≤ 0 then
    Except.error (PyError.generalError "Version must be greater than 0.")
  else
    Except.ok ⟨api_key, version, hash_salt,
      if secure_url then "https://api.recompi.com" else "http://api.recompi.com"⟩

/-- The element loop of `RecomPI._validate_profiles`: a `Profile` or
`SecureProfile` instance passes (the re-validation inside the first branch
trivially succeeds, and the `elif` duplicate branch is unreachable); any
other element raises `RecomPIException`. -/
def validateProfileItems : List ProfileItem → Except PyError Unit
  | [] => Except.ok ()
  | x :: rest =>
    if x.isProfile then
      validateProfileItems rest
    else
      Except.error (PyError.generalError "All profiles must be either Profile or SecureProfile instances.")

/-- `RecomPI._validate_profiles(profiles)`: a non-list raises, an empty list
raises, and each element must be a `Profile`/`SecureProfile` instance.  On
success the (unchanged) list is returned for further use. -/
def RecomPI.validate_profiles : ProfilesArg → Except PyError (List ProfileItem)
  | .single _ =>
    Except.error (PyError.generalError "profiles must be a list of Profile or SecureProfile instances.")
  | .list xs =>
    if xs.isEmpty then
      Except.error (PyError.generalError "At least one profile must be provided for personalized recommendations.")
    else
      match validateProfileItems xs with
      | Except.ok _ => Except.ok xs
      | Except.error e => Except.error e

/-- `RecomPI._list2dict(arr)`: fold `dict.update` over the list, starting
from the empty dict.  `dictSet` is one key-value insertion of `update`:
an existing key is overwritten in place, a new key is appended. -/
def dictSet (d : List (String × String)) (k v : String) : List (String × String) :=
  if d.any (fun kv => kv.1 == k) then
    d.map (fun kv => if kv.1 == k then (k, v) else kv)
  else
    d ++ [(k, v)]

/-- `dict.update(e)` applied to `d`: insert every entry of `e` in order. -/
def dictUpdate (d e : List (String × String)) : List (String × String) :=
  e.foldl (fun acc kv => dictSet acc kv.1 kv.2) d

/-- `RecomPI._list2dict`. -/
def RecomPI.list2dict (arr : List (List (String × String))) : List (String × String) :=
  arr.foldl dictUpdate []

/-- The request handed to `RecomPI._request` (the external HTTP transport):
method, endpoint relative to the base URL, and the JSON body. -/
structure Request where
  method : String
  endpoint : String
  data : Json

/-- `RecomPI.push(label, tags, profiles, location, geo=None)` up to the
request handed to `_request`.  `label` and the tag list are type-checked (by
typing here); a single profile-like object is wrapped; the profiles are
validated; `location` is type-checked unconditionally, so `None` raises; a
truthy `geo` is type-checked.  The body lists `label`, `tags`, `profiles`,
then `location` (a `Location` instance is always truthy), then `geo` when
present. -/
def RecomPI.push (c : RecomPI) (sha256_hexdigest : String → String)
    (label : String) (tags : TagsArg) (profiles : ProfilesArg)
    (location : Option Location) (geo : Option Geo) : Except PyError Request :=
  let tagList := tagsToList tags
  match RecomPI.validate_profiles (normalizeProfiles profiles) with
  | Except.error e => Except.error e
  | Except.ok profs =>
    match location with
    | none => Except.error (PyError.fieldTypeError "push" "location" "Location" "NoneType")
    | some loc =>
      let data :=
        [("label", Json.str label),
         ("tags", Json.arr (tagList.map (fun t => strDict (Tag.to_json t)))),
         ("profiles", strDict (RecomPI.list2dict (profs.map (ProfileItem.to_json sha256_hexdigest))))]
      let data := data ++ [("location", strDict (Location.to_json loc))]
      let data :=
        match geo with
        | some g => data ++ [("geo", strDict (Geo.to_json g))]
        | none => data
      Except.ok ⟨"post", "push/v" ++ toString c.version ++ "/" ++ c.api_key, Json.obj data⟩

/-- Python truthiness of the `profiles` argument of `recom`: `None` and the
empty list are falsy; a single object or a non-empty list is truthy. -/
def profilesTruthy : Option ProfilesArg → Bool
  | none => false
  | some (ProfilesArg.single _) => true
  | some (ProfilesArg.list xs) => !xs.isEmpty

/-- The `if profiles:` block of `recom`: only a truthy `profiles` is wrapped
and validated; a falsy one (`None` or the empty list) is skipped entirely. -/
def recomValidateProfiles (profiles : Option ProfilesArg) :
    Except PyError (List ProfileItem) :=
  if profilesTruthy profiles then
    match profiles with
    | some pa => RecomPI.validate_profiles (normalizeProfiles pa)
    | none => Except.ok []
  else
    Except.ok []

/-- `RecomPI.recom(labels, profiles=None, geo=None)` up to the request
handed to `_request`.  Labels are normalized and type-checked (by typing); a
truthy `profiles` is validated; a truthy `geo` is type-checked; then
`if not profiles and not geo:` raises; the body lists `labels`, then
`profiles` when truthy, then `geo` when truthy. -/
def RecomPI.recom (c : RecomPI) (sha256_hexdigest : String → String)
    (labels : LabelsArg) (profiles : Option ProfilesArg) (geo : Option Geo) :
    Except PyError Request :=
  let labelList := labelsToList labels
  match recomValidateProfiles profiles with
  | Except.error e => Except.error e
  | Except.ok profs =>
    if !profilesTruthy profiles && geo.isNone then
      Except.error (PyError.generalError "At least one of profiles or geo must be provided!")
    else
      let data := [("labels", Json.arr (labelList.map Json.str))]
      let data :=
        if profilesTruthy profiles then
          data ++ [("profiles", strDict (RecomPI.list2dict (profs.map (ProfileItem.to_json sha256_hexdigest))))]
        else data
      let data :=
        match geo with
        | some g => data ++ [("geo", strDict (Geo.to_json g))]
        | none => data
      Except.ok ⟨"post", "recom/v" ++ toString c.version ++ "/" ++ c.api_key, Json.obj data⟩

/-- Helper: appending the empty string on the right is the identity. -/
theorem string_append_empty_right (s : String) : s ++ "" = s :=
  String.append_empty s

/-- C1: the claim expects `Geo(country="US")` to construct successfully and
serialize to the single-entry country dict, but the code type-checks
`province` unconditionally, so the default `province=None` raises
`RecomPIFieldTypeError` and the construction never succeeds.  Once both
fields are strings, the serialization itself would behave as claimed, as the
second conjunct shows for the closest constructible value. -/
theorem geo_country_only_construction_fails :
    Geo.init (some "US") none
        = Except.error (PyError.fieldTypeError "Geo.__init__" "province" "str" "NoneType")
      ∧ Geo.to_json ⟨"US", ""⟩ = [("country", "US")] :=
  ⟨rfl, rfl⟩

/-- C2: the request built by `push` (and by `recom`) does not depend on the
client's `hash_salt`: two clients that differ only in `hash_salt` hand the
same request to the transport, because `profile.to_json()` is always invoked
with no salt argument and `hash_salt` is never read by either operation. -/
theorem payload_independent_of_hash_salt (sha256_hexdigest : String → String)
    (key : String) (ver : Int) (s1 s2 : Option String) (url : String)
    (label : String) (tags : TagsArg) (profiles : ProfilesArg)
    (location : Option Location) (geo : Option Geo) (labels : LabelsArg)
    (rprofiles : Option ProfilesArg) (rgeo : Option Geo) :
    RecomPI.push ⟨key, ver, s1, url⟩ sha256_hexdigest label tags profiles location geo
        = RecomPI.push ⟨key, ver, s2, url⟩ sha256_hexdigest label tags profiles location geo
      ∧ RecomPI.recom ⟨key, ver, s1, url⟩ sha256_hexdigest labels rprofiles rgeo
        = RecomPI.recom ⟨key, ver, s2, url⟩ sha256_hexdigest labels rprofiles rgeo :=
  ⟨rfl, rfl⟩

/-- C3 counterexample: the claim says `desc` falls back to `name` for every
falsy `desc`, including the empty string; but `Tag("t1", "Tag1", "")`
constructs successfully with `desc = ""`, and its `to_json` carries the
empty string, not the claimed fallback `"Tag1"`. -/
theorem tag_empty_desc_not_name :
    Tag.init "t1" "Tag1" (some "") = Except.ok ⟨"t1", "Tag1", ""⟩
      ∧ Tag.to_json ⟨"t1", "Tag1", ""⟩ = [("id", "t1"), ("name", "Tag1"), ("desc", "")]
      ∧ ("" : String) ≠ "Tag1" :=
  ⟨rfl, rfl, by decide⟩

/-- C3 amended: for every successfully constructed `Tag(id, name, desc)`,
`to_json()` equals the dict with `id`, `name`, and `desc` falling back to
`name` exactly when the supplied `desc` is `None`; a supplied empty string
is kept. -/
theorem tag_to_json_desc_fallback (id name : String) (desc : Option String)
    (t : Tag) (h : Tag.init id name desc = Except.ok t) :
    Tag.to_json t = [("id", id), ("name", name), ("desc", desc.getD name)] := by
  unfold Tag.init at h
  split at h
  · simp at h
  · injection h with h2
    subst h2
    rfl

/-- Witness for C3 amended at `Tag("t1", "Tag1", "")`. -/
theorem tag_to_json_desc_fallback_witness :
    Tag.init "t1" "Tag1" (some "") = Except.ok ⟨"t1", "Tag1", ""⟩
      ∧ Tag.to_json ⟨"t1", "Tag1", ""⟩
        = [("id", "t1"), ("name", "Tag1"), ("desc", Option.getD (some "") "Tag1")] :=
  ⟨rfl, tag_to_json_desc_fallback "t1" "Tag1" (some "") ⟨"t1", "Tag1", ""⟩ rfl⟩

/-- C4: for every `SecureProfile(name, id)` and every string salt,
`to_json(salt)` is the single-entry dict mapping `name` to the digest of
`id ++ salt`, and `to_json(None)` maps `name` to the digest of `id` alone;
being a pure function, two calls with the same salt agree (last conjunct). -/
theorem secure_profile_to_json_eq (sha256_hexdigest : String → String)
    (name id salt : String) :
    SecureProfile.to_json sha256_hexdigest ⟨name, id⟩ (some salt)
        = [(name, sha256_hexdigest (id ++ salt))]
      ∧ SecureProfile.to_json sha256_hexdigest ⟨name, id⟩ none
        = [(name, sha256_hexdigest id)]
      ∧ SecureProfile.to_json sha256_hexdigest ⟨name, id⟩ (some salt)
        = SecureProfile.to_json sha256_hexdigest ⟨name, id⟩ (some salt) := by
  refine ⟨?_, ?_, rfl⟩
  · by_cases h : salt = ""
    · subst h
      simp [SecureProfile.to_json, Profile.to_json, saltOrEmpty, string_append_empty_right]
    · simp [SecureProfile.to_json, Profile.to_json, saltOrEmpty, h]
  · simp [SecureProfile.to_json, Profile.to_json, saltOrEmpty, string_append_empty_right]

/-- C5: for `push(label="signup", tags=[Tag("t1","Tag1")],
profiles=[Profile("user","u1")], location=Location(ip="1.1.1.1"))`, every
value type constructing successfully, the request handed to the transport
carries exactly the claimed JSON body, with no geo key. -/
theorem push_concrete_body (sha256_hexdigest : String → String) :
    (do
        let t ← Tag.init "t1" "Tag1" none
        let p ← Profile.init "user" "u1"
        let loc ← Location.init (some "1.1.1.1") none none none
        let c ← RecomPI.init "APIKEY" 2 true none
        c.push sha256_hexdigest "signup" (TagsArg.list [t])
          (ProfilesArg.list [ProfileItem.plain p]) (some loc) none)
      = Except.ok ⟨"post", "push/v2/APIKEY",
          Json.obj
            [("label", Json.str "signup"),
             ("tags", Json.arr [Json.obj [("id", Json.str "t1"), ("name", Json.str "Tag1"), ("desc", Json.str "Tag1")]]),
             ("profiles", Json.obj [("user", Json.str "u1")]),
             ("location", Json.obj [("ip", Json.str "1.1.1.1")])]⟩ := by
  rfl

/-- C6: `is_success()` is true exactly when the captured status is an
integer in the interval from 200 up to but excluding 300; in particular it
is true at 200 and 299 and false at 199, 300, and non-integer statuses. -/
theorem is_success_iff (r : RecomPIResponse) :
    (r.is_success = true ↔ ∃ n : Int, r.status = PyStatus.int n ∧ 200 ≤ n ∧ n < 300)
      ∧ RecomPIResponse.is_success ⟨2, Sum.inr "", PyStatus.int 200⟩ = true
      ∧ RecomPIResponse.is_success ⟨2, Sum.inr "", PyStatus.int 299⟩ = true
      ∧ RecomPIResponse.is_success ⟨2, Sum.inr "", PyStatus.int 199⟩ = false
      ∧ RecomPIResponse.is_success ⟨2, Sum.inr "", PyStatus.int 300⟩ = false
      ∧ RecomPIResponse.is_success ⟨2, Sum.inr "", PyStatus.text "200"⟩ = false
      ∧ RecomPIResponse.is_success ⟨2, Sum.inr "", PyStatus.pynone⟩ = false := by
  refine ⟨?_, rfl, rfl, rfl, rfl, rfl, rfl⟩
  cases r with
  | mk v b s =>
    cases s with
    | int n => simp [RecomPIResponse.is_success]
    | text s => simp [RecomPIResponse.is_success]
    | pynone => simp [RecomPIResponse.is_success]

/-- C7: `push` raises `RecomPIException` on an empty profiles list and on a
profiles list containing a non-profile element such as a `Tag`; the result
is an error, so no request value is ever handed to the transport. -/
theorem push_profiles_validation_errors (sha256_hexdigest : String → String)
    (c : RecomPI) (label : String) (tags : TagsArg)
    (location : Option Location) (geo : Option Geo) (t : Tag) :
    c.push sha256_hexdigest label tags (ProfilesArg.list []) location geo
        = Except.error (PyError.generalError "At least one profile must be provided for personalized recommendations.")
      ∧ c.push sha256_hexdigest label tags (ProfilesArg.list [ProfileItem.tagItem t]) location geo
        = Except.error (PyError.generalError "All profiles must be either Profile or SecureProfile instances.") :=
  ⟨rfl, rfl⟩

/-- C8 counterexample: the claim says `recom(labels, profiles=[], geo=g)`
raises like `push(profiles=[])`, but the `if profiles:` guard treats the
empty list as falsy, skips validation, and the call succeeds with a body
holding only `labels` and `geo`.  The first conjunct shows the geo value is
constructible. -/
theorem recom_empty_profiles_with_geo_succeeds :
    Geo.init (some "US") (some "") = Except.ok ⟨"US", ""⟩
      ∧ RecomPI.recom ⟨"APIKEY", 2, none, "https://api.recompi.com"⟩ (fun s => s)
          (LabelsArg.list ["x"]) (some (ProfilesArg.list [])) (some ⟨"US", ""⟩)
        = Except.ok ⟨"post", "recom/v2/APIKEY",
            Json.obj [("labels", Json.arr [Json.str "x"]),
                      ("geo", Json.obj [("country", Json.str "US")])]⟩ :=
  ⟨rfl, rfl⟩

/-- C8 amended: `recom` validates `profiles` by the same rule as `push` only
when the argument is truthy: a non-empty list that fails
`_validate_profiles` makes `recom` raise that same error, while an empty
list is treated exactly as an absent `profiles` argument. -/
theorem recom_profiles_validated_when_truthy (sha256_hexdigest : String → String)
    (c : RecomPI) (labels : LabelsArg) (p : ProfileItem) (ps : List ProfileItem)
    (g : Geo) (e : PyError)
    (hval : RecomPI.validate_profiles (ProfilesArg.list (p :: ps)) = Except.error e) :
    c.recom sha256_hexdigest labels (some (ProfilesArg.list (p :: ps))) (some g)
        = Except.error e
      ∧ c.recom sha256_hexdigest labels (some (ProfilesArg.list [])) (some g)
        = c.recom sha256_hexdigest labels none (some g) := by
  constructor
  · have hv : recomValidateProfiles (some (ProfilesArg.list (p :: ps))) = Except.error e := by
      unfold recomValidateProfiles
      simpa [profilesTruthy, normalizeProfiles] using hval
    unfold RecomPI.recom
    rw [hv]
  · rfl

/-- Witness for C8 amended at a profiles list holding a single `Tag`. -/
theorem recom_profiles_validated_when_truthy_witness :
    RecomPI.validate_profiles (ProfilesArg.list [ProfileItem.tagItem ⟨"t1", "Tag1", "Tag1"⟩])
        = Except.error (PyError.generalError "All profiles must be either Profile or SecureProfile instances.")
      ∧ (RecomPI.recom ⟨"APIKEY", 2, none, "https://api.recompi.com"⟩ (fun s => s)
            (LabelsArg.list ["x"])
            (some (ProfilesArg.list [ProfileItem.tagItem ⟨"t1", "Tag1", "Tag1"⟩]))
            (some ⟨"US", ""⟩)
          = Except.error (PyError.generalError "All profiles must be either Profile or SecureProfile instances.")
        ∧ RecomPI.recom ⟨"APIKEY", 2, none, "https://api.recompi.com"⟩ (fun s => s)
            (LabelsArg.list ["x"]) (some (ProfilesArg.list [])) (some ⟨"US", ""⟩)
          = RecomPI.recom ⟨"APIKEY", 2, none, "https://api.recompi.com"⟩ (fun s => s)
            (LabelsArg.list ["x"]) none (some ⟨"US", ""⟩)) :=
  ⟨rfl,
    recom_profiles_validated_when_truthy (fun s => s)
      ⟨"APIKEY", 2, none, "https://api.recompi.com"⟩ (LabelsArg.list ["x"])
      (ProfileItem.tagItem ⟨"t1", "Tag1", "Tag1"⟩) [] ⟨"US", ""⟩
      (PyError.generalError "All profiles must be either Profile or SecureProfile instances.") rfl⟩

/-- C9: `recom` with neither `profiles` nor `geo` raises `RecomPIException`;
the result is an error, so no request value is ever handed to the
transport. -/
theorem recom_requires_profiles_or_geo (sha256_hexdigest : String → String)
    (c : RecomPI) (labels : LabelsArg) :
    c.recom sha256_hexdigest labels none none
      = Except.error (PyError.generalError "At least one of profiles or geo must be provided!") :=
  rfl

/-- C10: a single value where a list is accepted builds the same request as
the singleton list: for `recom` labels, for `push` tags, and for `push`
profiles, both plain and secure. -/
theorem single_arg_equivalent_to_singleton (sha256_hexdigest : String → String)
    (c : RecomPI) (s : String) (rprofiles : Option ProfilesArg) (rgeo : Option Geo)
    (label : String) (t : Tag) (profiles : ProfilesArg) (tags : TagsArg)
    (location : Option Location) (geo : Option Geo) (p : Profile) :
    c.recom sha256_hexdigest (LabelsArg.single s) rprofiles rgeo
        = c.recom sha256_hexdigest (LabelsArg.list [s]) rprofiles rgeo
      ∧ c.push sha256_hexdigest label (TagsArg.single t) profiles location geo
        = c.push sha256_hexdigest label (TagsArg.list [t]) profiles location geo
      ∧ c.push sha256_hexdigest label tags (ProfilesArg.single (ProfileItem.plain p)) location geo
        = c.push sha256_hexdigest label tags (ProfilesArg.list [ProfileItem.plain p]) location geo
      ∧ c.push sha256_hexdigest label tags (ProfilesArg.single (ProfileItem.secure p)) location geo
        = c.push sha256_hexdigest label tags (ProfilesArg.list [ProfileItem.secure p]) location geo :=
  ⟨rfl, rfl, rfl, rfl⟩
